import Mathlib

/-!
Verification of the parameter-transfer logic of `PYTHON/ParmTransfer/parm_transfer.py`.

The file shallowly embeds the two logic-bearing pieces of the tool:

* `ParameterItem` / `ParameterItem.ofParm` — the parameter snapshot built by
  `ParameterItem.__init__` / `ParameterItem._get_value` (lines 18-48 of the source);
* `transfer_parameter` — the transfer resolver `_transfer_parameter`
  (lines 675-717), together with the batch loop of `_do_transfer` (lines 644-663).

The host scene API (the `hou` module) is external to the repository, so its
fallible operations are modelled by data: a read that can raise is an `Option`
field on the parameter record (`none` = the call raises), and a mutation that
can raise carries a boolean failure flag on the target parameter.  Exceptions
are modelled with `Except`, where the `error` payload carries the state of the
target parameter at the moment the exception escapes (Python exceptions leave
already-performed mutations in place).
-/

set_option autoImplicit false

namespace ParmTransfer

/-- Parameter template type classes, after `hou.parmTemplateType`.
Only the constructors the transfer logic distinguishes are relevant;
`Other` stands for every remaining value-bearing template type. -/
inductive ParmType where
  | String
  | Toggle
  | Menu
  | Ramp
  | Numeric
  | Other
  deriving DecidableEq

/-- Runtime parameter values, as returned by `parm.eval()` / stored by
`parm.set(...)`.  Numbers are modelled by integers (no claim depends on real
arithmetic), strings by `String`, and ramps by an opaque payload. -/
inductive Value where
  | num (x : Int)
  | str (s : String)
  | ramp (data : List Int)
  deriving DecidableEq

/-- One animation keyframe: the (time, value, interpolation) triple that
`parm.keyframes()` yields and `parm.setKeyframe(...)` stores. -/
structure Keyframe where
  time : Int
  value : Int
  interp : String
  deriving DecidableEq

/-- A live source-parameter handle, i.e. the state the scene API exposes for a
`hou.Parm` on the source node.  Fallible reads are `Option`-valued: `none`
means the corresponding call raises.

* `evalResult` — result of `parm.eval()`;
* `unexpandedResult` — result of `parm.unexpandedString()`;
* `isTimeDependent` — result of `parm.isTimeDependent()`: whether the
  parameter's value varies with time via stored animation samples;
* `expr` — the attached expression as (text, language): `parm.expression()`
  raises `hou.OperationFailed` exactly when this is `none`, and
  `parm.expressionLanguage()` returns the second component;
* `keyframesResult` — result of `parm.keyframes()`;
* `locked` — result of `parm.isLocked()`. -/
structure SourceParm where
  name : String
  label : String
  ptype : ParmType
  evalResult : Option Value
  unexpandedResult : Option String
  isAtDefault : Bool
  isTimeDependent : Bool
  expr : Option (String × String)
  keyframesResult : Option (List Keyframe)
  locked : Bool
  deriving DecidableEq

/-- The mutable state of a parameter on a target node, together with flags
describing which scene-API mutations raise on it (`deleteAllKeyframes`,
`setKeyframe`, `setExpression`, `set`).  A failing mutation leaves the data
fields unchanged. -/
structure TargetParm where
  keyframes : List Keyframe
  value : Value
  exprState : Option (String × String)
  locked : Bool
  deleteKeyframesFails : Bool
  setKeyframeFails : Bool
  setExpressionFails : Bool
  setValueFails : Bool
  deriving DecidableEq

/-- A target node: its named parameters, in declaration order.
`TargetNode.parm` mirrors `hou.Node.parm(name)` (first match or `None`). -/
structure TargetNode where
  parms : List (String × TargetParm)
  deriving DecidableEq

/-- First parameter with the given name, as `target_node.parm(name)`. -/
def findParm : List (String × TargetParm) → String → Option TargetParm
  | [], _ => none
  | (k, v) :: rest, a => if k = a then some v else findParm rest a

/-- Replace the state of every parameter with the given name. -/
def updateParm (l : List (String × TargetParm)) (a : String) (t : TargetParm) :
    List (String × TargetParm) :=
  l.map (fun pr => if pr.1 = a then (pr.1, t) else pr)

def TargetNode.parm (n : TargetNode) (a : String) : Option TargetParm :=
  findParm n.parms a

def TargetNode.setParm (n : TargetNode) (a : String) (t : TargetParm) : TargetNode :=
  ⟨updateParm n.parms a t⟩

/-- Snapshot of one source parameter: the fields `ParameterItem.__init__`
stores (lines 20-38).  `parm` is the retained live handle (`self.parm`);
`parm_template_type` is `self.parm_template.type()`, the only part of the
template the transfer logic reads.  The display string `value_display` is pure
UI derivation and is outside the claims, so it is not modelled. -/
structure ParameterItem where
  parm : SourceParm
  name : String
  label : String
  parm_template_type : ParmType
  is_at_default : Bool
  value : Option Value
  has_keyframes : Bool
  has_expression : Bool
  deriving DecidableEq

/-- Embedding of `ParameterItem._get_value` (lines 40-48): try `parm.eval()`,
on any exception try `parm.unexpandedString()`, on any exception return
`None`. -/
def get_value (p : SourceParm) : Option Value :=
  match p.evalResult with
  | some v => some v
  | none =>
    match p.unexpandedResult with
    | some s => some (Value.str s)
    | none => none

/-- Embedding of `ParameterItem.__init__` (lines 20-38).  `has_keyframes` is
`parm.isTimeDependent()`; `has_expression` starts `False` and is set to `True`
only when `has_keyframes` is false and `parm.expression()` succeeds
(`hou.OperationFailed` is swallowed).  The construction is a total function:
a snapshot is produced for every source handle. -/
def ParameterItem.ofParm (p : SourceParm) : ParameterItem :=
  { parm := p
    name := p.name
    label := p.label
    parm_template_type := p.ptype
    is_at_default := p.isAtDefault
    value := get_value p
    has_keyframes := p.isTimeDependent
    has_expression := !p.isTimeDependent && p.expr.isSome }

/-- Outcome classification of one (target, parameter) pair, after the strings
`"success"` / `"skipped"` / `"failed"` returned by `_transfer_parameter`. -/
inductive Outcome where
  | success
  | skipped
  | failed
  deriving DecidableEq

/-- Embedding of `target_parm.deleteAllKeyframes()` (line 690). -/
def deleteAllKeyframesOp (t : TargetParm) : Except TargetParm TargetParm :=
  if t.deleteKeyframesFails then Except.error t
  else Except.ok { t with keyframes := [] }

/-- Embedding of `target_parm.setKeyframe(keyframe)` (line 692): appends the
keyframe to the stored sequence. -/
def setKeyframeOp (k : Keyframe) (t : TargetParm) : Except TargetParm TargetParm :=
  if t.setKeyframeFails then Except.error t
  else Except.ok { t with keyframes := t.keyframes ++ [k] }

/-- Embedding of `target_parm.setExpression(expr, lang)` (line 699). -/
def setExpressionOp (e lang : String) (t : TargetParm) : Except TargetParm TargetParm :=
  if t.setExpressionFails then Except.error t
  else Except.ok { t with exprState := some (e, lang) }

/-- Embedding of `target_parm.set(value)` (lines 707-711). -/
def setOp (v : Value) (t : TargetParm) : Except TargetParm TargetParm :=
  if t.setValueFails then Except.error t
  else Except.ok { t with value := v }

/-- The `for keyframe in source_parm.keyframes(): target_parm.setKeyframe(keyframe)`
loop of lines 691-692: stops at the first raising call, carrying the state at
that point. -/
def setKeyframesLoop : List Keyframe → TargetParm → Except TargetParm TargetParm
  | [], t => Except.ok t
  | k :: rest, t =>
    match setKeyframeOp k t with
    | Except.ok t' => setKeyframesLoop rest t'
    | Except.error t' => Except.error t'

/-- The inner `try` of lines 696-702: read `source_parm.expression()` and
`source_parm.expressionLanguage()`, set both on the target, return success
(`some` of the new state).  Any failure is swallowed (`except: pass`),
returning `none` with the target unchanged. -/
def exprAttempt (item : ParameterItem) (src : SourceParm) (tp : TargetParm)
    (copy_expressions : Bool) : Option TargetParm :=
  if copy_expressions && item.has_expression then
    match src.expr with
    | some (e, lang) =>
      match setExpressionOp e lang tp with
      | Except.ok t => some t
      | Except.error _ => none
    | none => none
  else none

/-- The plain-value copy of lines 704-711: String parameters receive
`source_parm.unexpandedString()`, Ramp and every other type receive
`source_parm.eval()`. -/
def copyPlainValue (item : ParameterItem) (src : SourceParm) (tp : TargetParm) :
    Except TargetParm TargetParm :=
  match item.parm_template_type with
  | ParmType.String =>
    match src.unexpandedResult with
    | some s => setOp (Value.str s) tp
    | none => Except.error tp
  | ParmType.Ramp =>
    match src.evalResult with
    | some v => setOp v tp
    | none => Except.error tp
  | _ =>
    match src.evalResult with
    | some v => setOp v tp
    | none => Except.error tp

/-- The body of the outer `try` of lines 687-713: keyframe branch, then
expression branch (whose failure falls through), then plain-value copy.
`Except.ok` is a `return "success"`, `Except.error` an exception reaching the
outer handler (line 715), which turns it into `"failed"`. -/
def transferTry (item : ParameterItem) (src : SourceParm) (tp : TargetParm)
    (copy_expressions copy_keyframes : Bool) : Except TargetParm TargetParm :=
  if copy_keyframes && item.has_keyframes then
    match deleteAllKeyframesOp tp with
    | Except.error t => Except.error t
    | Except.ok t =>
      match src.keyframesResult with
      | none => Except.error t
      | some ks => setKeyframesLoop ks t
  else
    match exprAttempt item src tp copy_expressions with
    | some t => Except.ok t
    | none => copyPlainValue item src tp

/-- Embedding of `_transfer_parameter` (lines 675-717): resolve the target
parameter by name (`Failed` if absent), apply the lock-skip policy (note the
Python short-circuit: `source_parm.isLocked()` is only consulted when the
target is not locked), then run the guarded transfer body.  Returns the
outcome and the updated target node. -/
def transfer_parameter (item : ParameterItem) (node : TargetNode)
    (copy_expressions copy_keyframes skip_locked : Bool) : Outcome × TargetNode :=
  let source_parm := item.parm
  match node.parm item.name with
  | none => (Outcome.failed, node)
  | some target_parm =>
    if skip_locked && (target_parm.locked || source_parm.locked) then
      (Outcome.skipped, node)
    else
      match transferTry item source_parm target_parm copy_expressions copy_keyframes with
      | Except.ok t => (Outcome.success, node.setParm item.name t)
      | Except.error t => (Outcome.failed, node.setParm item.name t)

/-- Aggregated outcome counters of `_do_transfer` (lines 645-647). -/
structure TransferCounts where
  success_count : Nat
  skip_count : Nat
  fail_count : Nat
  deriving DecidableEq

/-- Counter update of lines 658-663: `"success"` and `"skipped"` bump their
counters, anything else counts as failed. -/
def tally (c : TransferCounts) : Outcome → TransferCounts
  | Outcome.success => { c with success_count := c.success_count + 1 }
  | Outcome.skipped => { c with skip_count := c.skip_count + 1 }
  | Outcome.failed => { c with fail_count := c.fail_count + 1 }

/-- Inner loop of `_do_transfer` (lines 650-663): transfer every checked
parameter onto one target node, threading the node state and the counters. -/
def transferToTarget (items : List ParameterItem) (copy_expressions copy_keyframes skip_locked : Bool) :
    TargetNode → TransferCounts → TargetNode × TransferCounts
  | node, c =>
    match items with
    | [] => (node, c)
    | it :: rest =>
      let r := transfer_parameter it node copy_expressions copy_keyframes skip_locked
      transferToTarget rest copy_expressions copy_keyframes skip_locked r.2 (tally c r.1)

/-- Outer loop of `_do_transfer` (lines 649-663): process every target node in
order, accumulating the three counters across the whole batch. -/
def do_transfer (targets : List TargetNode) (items : List ParameterItem)
    (copy_expressions copy_keyframes skip_locked : Bool)
    (c : TransferCounts) : List TargetNode × TransferCounts :=
  match targets with
  | [] => ([], c)
  | n :: rest =>
    let r := transferToTarget items copy_expressions copy_keyframes skip_locked n c
    let rr := do_transfer rest items copy_expressions copy_keyframes skip_locked r.2
    (r.1 :: rr.1, rr.2)

/-- The parameter state an `Except`-modelled step leaves behind, whether it
returned normally or raised. -/
def resultParm : Except TargetParm TargetParm → TargetParm
  | Except.ok t => t
  | Except.error t => t

/-! ### Instrumentation: the scene-API calls applied to the source parameter

`_transfer_parameter` mutates only the target; to state that, each method the
resolver can invoke on a `hou.Parm` gets a constructor, and
`transferSourceOps` replays the resolver's control flow recording the calls
applied to `source_parm`.  The write constructors exist so that "only reads"
is a property of the trace, not of the vocabulary. -/

/-- Scene-API methods invocable on a parameter handle. -/
inductive SrcOp where
  | eval
  | unexpandedString
  | expression
  | expressionLanguage
  | keyframes
  | isLocked
  | set
  | setKeyframe
  | deleteAllKeyframes
  | setExpression
  deriving DecidableEq

/-- Whether a scene-API method is a pure read (no scene mutation). -/
def SrcOp.isRead : SrcOp → Bool
  | SrcOp.eval | SrcOp.unexpandedString | SrcOp.expression
  | SrcOp.expressionLanguage | SrcOp.keyframes | SrcOp.isLocked => true
  | SrcOp.set | SrcOp.setKeyframe | SrcOp.deleteAllKeyframes
  | SrcOp.setExpression => false

/-- Source-parameter calls made by the plain-value copy (lines 704-711):
`unexpandedString()` for String parameters, `eval()` for Ramp and every other
type. -/
def plainValueOps (item : ParameterItem) : List SrcOp :=
  match item.parm_template_type with
  | ParmType.String => [SrcOp.unexpandedString]
  | ParmType.Ramp => [SrcOp.eval]
  | _ => [SrcOp.eval]

/-- Source-parameter calls made inside the outer `try` (lines 687-713).
In the keyframe branch `source_parm.keyframes()` is reached only when
`deleteAllKeyframes` did not raise.  In the expression branch
`expression()` is always read; `expressionLanguage()` only when that read
succeeded; a successful `setExpression` returns before the value copy, any
failure falls through to it. -/
def transferTryOps (item : ParameterItem) (src : SourceParm) (tp : TargetParm)
    (copy_expressions copy_keyframes : Bool) : List SrcOp :=
  if copy_keyframes && item.has_keyframes then
    if tp.deleteKeyframesFails then [] else [SrcOp.keyframes]
  else
    if copy_expressions && item.has_expression then
      match src.expr with
      | none => SrcOp.expression :: plainValueOps item
      | some _ =>
        if tp.setExpressionFails then
          SrcOp.expression :: SrcOp.expressionLanguage :: plainValueOps item
        else [SrcOp.expression, SrcOp.expressionLanguage]
    else plainValueOps item

/-- All calls `_transfer_parameter` applies to the source parameter handle
(lines 675-717).  `source_parm.isLocked()` is consulted only when
`skip_locked` is set and the target parameter is not itself locked (Python's
`and`/`or` short-circuiting on line 684). -/
def transferSourceOps (item : ParameterItem) (node : TargetNode)
    (copy_expressions copy_keyframes skip_locked : Bool) : List SrcOp :=
  let src := item.parm
  match node.parm item.name with
  | none => []
  | some tp =>
    if skip_locked then
      if tp.locked then []
      else if src.locked then [SrcOp.isLocked]
      else SrcOp.isLocked :: transferTryOps item src tp copy_expressions copy_keyframes
    else transferTryOps item src tp copy_expressions copy_keyframes

/-! ### Concrete fixtures used by the witness theorems -/

/-- A plain numeric source parameter (not animated, no expression). -/
def srcNum : SourceParm :=
  { name := "tx"
    label := "Translate X"
    ptype := ParmType.Numeric
    evalResult := some (Value.num 45)
    unexpandedResult := some "45"
    isAtDefault := false
    isTimeDependent := false
    expr := none
    keyframesResult := some []
    locked := false }

/-- An animated source parameter with three keyframes. -/
def srcAnim : SourceParm :=
  { name := "scale"
    label := "Scale"
    ptype := ParmType.Numeric
    evalResult := some (Value.num 1)
    unexpandedResult := some "1"
    isAtDefault := false
    isTimeDependent := true
    expr := none
    keyframesResult := some [⟨1, 10, "linear"⟩, ⟨12, 20, "bezier"⟩, ⟨24, 5, "linear"⟩]
    locked := false }

/-- A string source parameter whose raw text differs from its evaluated form. -/
def srcStr : SourceParm :=
  { name := "color"
    label := "Color Map"
    ptype := ParmType.String
    evalResult := some (Value.str "/home/user/tex.png")
    unexpandedResult := some "$HIP/tex.png"
    isAtDefault := false
    isTimeDependent := false
    expr := none
    keyframesResult := some []
    locked := false }

/-- An expression-driven source parameter. -/
def srcExpr : SourceParm :=
  { name := "ty"
    label := "Translate Y"
    ptype := ParmType.Numeric
    evalResult := some (Value.num 7)
    unexpandedResult := some "7"
    isAtDefault := false
    isTimeDependent := false
    expr := some ("ch(\"tx\") * 2", "hscript")
    keyframesResult := some []
    locked := false }

/-- A locked source parameter. -/
def srcLocked : SourceParm :=
  { srcNum with name := "tz", label := "Translate Z", locked := true }

/-- A healthy, unlocked target parameter holding one pre-existing keyframe. -/
def tpFresh : TargetParm :=
  { keyframes := [⟨1, 99, "constant"⟩]
    value := Value.num 0
    exprState := none
    locked := false
    deleteKeyframesFails := false
    setKeyframeFails := false
    setExpressionFails := false
    setValueFails := false }

/-- A target parameter on which `setExpression` raises. -/
def tpExprFails : TargetParm :=
  { tpFresh with setExpressionFails := true }

/-- A locked target parameter. -/
def tpLocked : TargetParm :=
  { tpFresh with locked := true }

/-- A target node carrying parameters for all fixture names. -/
def nodeEx : TargetNode :=
  ⟨[("tx", tpFresh), ("scale", tpFresh), ("color", tpFresh),
    ("ty", tpExprFails), ("tz", tpFresh)]⟩

/-- A source parameter whose name no fixture target node carries. -/
def srcMissing : SourceParm :=
  { srcNum with name := "does_not_exist", label := "Missing" }

/-- A string source parameter whose native evaluation raises. -/
def srcEvalFails : SourceParm :=
  { srcStr with name := "file", label := "File", evalResult := none }

/-- A source parameter on which both evaluation and the raw-string read raise. -/
def srcAllFails : SourceParm :=
  { srcNum with
    name := "broken"
    label := "Broken"
    evalResult := none
    unexpandedResult := none }

/-! ### Basic lemmas about node lookup and update -/

theorem updateParm_cons (k : String) (v : TargetParm) (tl : List (String × TargetParm))
    (a : String) (t : TargetParm) :
    updateParm ((k, v) :: tl) a t =
      (if k = a then (k, t) else (k, v)) :: updateParm tl a t := rfl

theorem findParm_updateParm (l : List (String × TargetParm)) (a : String) (t : TargetParm) :
    findParm (updateParm l a t) a = (findParm l a).map (fun _ => t) := by
  induction l with
  | nil => rfl
  | cons hd tl ih =>
    obtain ⟨k, v⟩ := hd
    rw [updateParm_cons]
    by_cases h : k = a
    · rw [if_pos h]
      simp [findParm, h]
    · rw [if_neg h]
      simp only [findParm, h, if_false]
      exact ih

theorem parm_setParm (n : TargetNode) (a : String) (tp t : TargetParm)
    (h : n.parm a = some tp) : (n.setParm a t).parm a = some t := by
  unfold TargetNode.parm TargetNode.setParm at *
  rw [findParm_updateParm]
  rw [h]
  rfl

theorem updateParm_updateParm (l : List (String × TargetParm)) (a : String) (t t' : TargetParm) :
    updateParm (updateParm l a t) a t' = updateParm l a t' := by
  induction l with
  | nil => rfl
  | cons hd tl ih =>
    by_cases h : hd.1 = a <;> simp [updateParm, h] at ih ⊢ <;> exact ih

theorem setParm_setParm (n : TargetNode) (a : String) (t t' : TargetParm) :
    (n.setParm a t).setParm a t' = n.setParm a t' := by
  simp [TargetNode.setParm, updateParm_updateParm]

/-- Closed form of the keyframe-copy loop: the first `setKeyframe` call raises
when the flag is set (and there is at least one keyframe to write); otherwise
the whole source sequence is appended. -/
theorem setKeyframesLoop_spec (ks : List Keyframe) (t : TargetParm) :
    setKeyframesLoop ks t =
      if t.setKeyframeFails && !ks.isEmpty then Except.error t
      else Except.ok { t with keyframes := t.keyframes ++ ks } := by
  induction ks generalizing t with
  | nil => simp [setKeyframesLoop]
  | cons k rest ih =>
    cases hf : t.setKeyframeFails with
    | true => simp [setKeyframesLoop, setKeyframeOp, hf]
    | false => simp [setKeyframesLoop, setKeyframeOp, hf, ih]

/-! ### Claim theorems -/

/-- C5: if the target node has no parameter with the descriptor's name the
outcome is `Failed`, for every option combination, and this is decided before
the lock, keyframe, expression and value steps: the returned node is the input
node, unmodified. -/
theorem transfer_missing_parameter_fails (item : ParameterItem) (node : TargetNode)
    (copy_expressions copy_keyframes skip_locked : Bool)
    (h : node.parm item.name = none) :
    transfer_parameter item node copy_expressions copy_keyframes skip_locked
      = (Outcome.failed, node) := by
  simp [transfer_parameter, h]

/-- Witness for `transfer_missing_parameter_fails` on the fixture node, which
has no parameter named `does_not_exist`. -/
theorem transfer_missing_parameter_fails_witness :
    nodeEx.parm (ParameterItem.ofParm srcMissing).name = none ∧
    transfer_parameter (ParameterItem.ofParm srcMissing) nodeEx true true true
      = (Outcome.failed, nodeEx) :=
  ⟨by decide, transfer_missing_parameter_fails _ _ _ _ _ (by decide)⟩

/-- C4: with `skipLocked` enabled, an existing target parameter that is locked
on either side (target parameter or originating source parameter) is always
`Skipped`, whatever `copyExpressions` and `copyKeyframes` are, and the target
node is returned unchanged. -/
theorem transfer_skip_locked (item : ParameterItem) (node : TargetNode)
    (copy_expressions copy_keyframes : Bool) (tp : TargetParm)
    (hfind : node.parm item.name = some tp)
    (hlock : tp.locked = true ∨ item.parm.locked = true) :
    transfer_parameter item node copy_expressions copy_keyframes true
      = (Outcome.skipped, node) := by
  rcases hlock with h | h <;> simp [transfer_parameter, hfind, h]

/-- Witness for `transfer_skip_locked`: the source fixture `tz` is locked while
its target parameter exists and is unlocked; the pair is skipped. -/
theorem transfer_skip_locked_witness :
    nodeEx.parm (ParameterItem.ofParm srcLocked).name = some tpFresh ∧
    (ParameterItem.ofParm srcLocked).parm.locked = true ∧
    transfer_parameter (ParameterItem.ofParm srcLocked) nodeEx false false true
      = (Outcome.skipped, nodeEx) :=
  ⟨by decide, by decide,
    transfer_skip_locked (ParameterItem.ofParm srcLocked) nodeEx false false tpFresh
      (by decide) (Or.inr (by decide))⟩

/-- C1: with `copyKeyframes` enabled on a descriptor with `hasKeyframes`, when
the target parameter exists, the lock-skip branch does not apply, and the
keyframe scene-API calls succeed, the transfer clears the target's pre-existing
keyframes and writes exactly the source keyframe sequence, in order, onto it;
the outcome is `Success` and the target parameter's final keyframe list is
element-wise equal to the source's. -/
theorem transfer_keyframes_copied (item : ParameterItem) (node : TargetNode)
    (copy_expressions skip_locked : Bool) (tp : TargetParm) (ks : List Keyframe)
    (hkf : item.has_keyframes = true)
    (hfind : node.parm item.name = some tp)
    (hlock : (skip_locked && (tp.locked || item.parm.locked)) = false)
    (hdel : tp.deleteKeyframesFails = false)
    (hset : tp.setKeyframeFails = false)
    (hks : item.parm.keyframesResult = some ks) :
    transfer_parameter item node copy_expressions true skip_locked
      = (Outcome.success, node.setParm item.name { tp with keyframes := ks }) ∧
    (transfer_parameter item node copy_expressions true skip_locked).2.parm item.name
      = some { tp with keyframes := ks } := by
  have hmain : transfer_parameter item node copy_expressions true skip_locked
      = (Outcome.success, node.setParm item.name { tp with keyframes := ks }) := by
    simp [transfer_parameter, hfind, hlock, transferTry, hkf, deleteAllKeyframesOp, hdel,
          hks, setKeyframesLoop_spec, hset]
  refine ⟨hmain, ?_⟩
  rw [hmain]
  exact parm_setParm node item.name tp _ hfind

/-- Witness for `transfer_keyframes_copied`: the animated fixture `scale` has
three keyframes; the target's single pre-existing keyframe is replaced by
exactly those three. -/
theorem transfer_keyframes_copied_witness :
    (ParameterItem.ofParm srcAnim).has_keyframes = true ∧
    nodeEx.parm (ParameterItem.ofParm srcAnim).name = some tpFresh ∧
    (true && (tpFresh.locked || (ParameterItem.ofParm srcAnim).parm.locked)) = false ∧
    tpFresh.deleteKeyframesFails = false ∧
    tpFresh.setKeyframeFails = false ∧
    (ParameterItem.ofParm srcAnim).parm.keyframesResult
      = some [⟨1, 10, "linear"⟩, ⟨12, 20, "bezier"⟩, ⟨24, 5, "linear"⟩] ∧
    (transfer_parameter (ParameterItem.ofParm srcAnim) nodeEx true true true).2.parm
        (ParameterItem.ofParm srcAnim).name
      = some { tpFresh with
                keyframes := [⟨1, 10, "linear"⟩, ⟨12, 20, "bezier"⟩, ⟨24, 5, "linear"⟩] } :=
  ⟨by decide, by decide, by decide, by decide, by decide, by decide,
    (transfer_keyframes_copied (ParameterItem.ofParm srcAnim) nodeEx true true tpFresh
      [⟨1, 10, "linear"⟩, ⟨12, 20, "bezier"⟩, ⟨24, 5, "linear"⟩]
      (by decide) (by decide) (by decide) (by decide) (by decide) (by decide)).2⟩

/-- C3: when neither the keyframe branch nor the expression branch applies and
the write succeeds, a String-typed descriptor receives the source's raw
unevaluated string (`unexpandedString`), verbatim, while every non-String type
(Ramp included) receives the evaluated value (`eval`). -/
theorem transfer_plain_value (item : ParameterItem) (node : TargetNode)
    (copy_expressions copy_keyframes skip_locked : Bool) (tp : TargetParm)
    (hfind : node.parm item.name = some tp)
    (hlock : (skip_locked && (tp.locked || item.parm.locked)) = false)
    (hkf : (copy_keyframes && item.has_keyframes) = false)
    (hex : (copy_expressions && item.has_expression) = false)
    (hset : tp.setValueFails = false) :
    (∀ s, item.parm_template_type = ParmType.String →
        item.parm.unexpandedResult = some s →
        transfer_parameter item node copy_expressions copy_keyframes skip_locked
          = (Outcome.success, node.setParm item.name { tp with value := Value.str s })) ∧
    (∀ v, item.parm_template_type ≠ ParmType.String →
        item.parm.evalResult = some v →
        transfer_parameter item node copy_expressions copy_keyframes skip_locked
          = (Outcome.success, node.setParm item.name { tp with value := v })) := by
  constructor
  · intro s hty hraw
    simp [transfer_parameter, hfind, hlock, transferTry, hkf, exprAttempt, hex,
          copyPlainValue, hty, hraw, setOp, hset]
  · intro v hty heval
    cases hty' : item.parm_template_type <;>
      first
      | exact absurd hty' hty
      | simp [transfer_parameter, hfind, hlock, transferTry, hkf, exprAttempt, hex,
              copyPlainValue, hty', heval, setOp, hset]

/-- Witness for `transfer_plain_value`: the string fixture `color` receives the
raw text `$HIP/tex.png` rather than its evaluated expansion, and the numeric
fixture `tx` receives its evaluated value. -/
theorem transfer_plain_value_witness :
    (ParameterItem.ofParm srcStr).parm_template_type = ParmType.String ∧
    (ParameterItem.ofParm srcStr).parm.unexpandedResult = some "$HIP/tex.png" ∧
    transfer_parameter (ParameterItem.ofParm srcStr) nodeEx false false true
      = (Outcome.success,
         nodeEx.setParm "color" { tpFresh with value := Value.str "$HIP/tex.png" }) ∧
    transfer_parameter (ParameterItem.ofParm srcNum) nodeEx false false true
      = (Outcome.success, nodeEx.setParm "tx" { tpFresh with value := Value.num 45 }) :=
  ⟨by decide, by decide,
    (transfer_plain_value (ParameterItem.ofParm srcStr) nodeEx false false true tpFresh
      (by decide) (by decide) (by decide) (by decide) (by decide)).1
      "$HIP/tex.png" (by decide) (by decide),
    (transfer_plain_value (ParameterItem.ofParm srcNum) nodeEx false false true tpFresh
      (by decide) (by decide) (by decide) (by decide) (by decide)).2
      (Value.num 45) (by decide) (by decide)⟩

/-- C2: with `copyExpressions` enabled on an expression-bearing descriptor
(keyframe branch not taken), a failing `setExpression` on the target does not
make the pair `Failed`: the transfer falls through to the plain-value copy, and
both the outcome and the final target state are exactly those of that step. -/
theorem transfer_expression_failure_falls_through (item : ParameterItem)
    (node : TargetNode) (copy_keyframes skip_locked : Bool) (tp : TargetParm)
    (e lang : String)
    (hfind : node.parm item.name = some tp)
    (hlock : (skip_locked && (tp.locked || item.parm.locked)) = false)
    (hkf : (copy_keyframes && item.has_keyframes) = false)
    (hexp : item.has_expression = true)
    (hsrc : item.parm.expr = some (e, lang))
    (hfail : tp.setExpressionFails = true) :
    transfer_parameter item node true copy_keyframes skip_locked
      = (match copyPlainValue item item.parm tp with
         | Except.ok t => (Outcome.success, node.setParm item.name t)
         | Except.error t => (Outcome.failed, node.setParm item.name t)) := by
  simp [transfer_parameter, hfind, hlock, transferTry, hkf, exprAttempt, hexp, hsrc,
        setExpressionOp, hfail]

/-- Witness for `transfer_expression_failure_falls_through`: the fixture `ty`
carries an expression, its target rejects `setExpression`, and the pair still
succeeds through the plain-value copy. -/
theorem transfer_expression_failure_falls_through_witness :
    (ParameterItem.ofParm srcExpr).has_expression = true ∧
    tpExprFails.setExpressionFails = true ∧
    transfer_parameter (ParameterItem.ofParm srcExpr) nodeEx true false true
      = (match copyPlainValue (ParameterItem.ofParm srcExpr)
                (ParameterItem.ofParm srcExpr).parm tpExprFails with
         | Except.ok t => (Outcome.success, nodeEx.setParm "ty" t)
         | Except.error t => (Outcome.failed, nodeEx.setParm "ty" t)) :=
  ⟨by decide, by decide,
    transfer_expression_failure_falls_through (ParameterItem.ofParm srcExpr) nodeEx
      false true tpExprFails "ch(\"tx\") * 2" "hscript"
      (by decide) (by decide) (by decide) (by decide) (by decide) (by decide)⟩

/-- C6: snapshot construction is a total function (it never raises) and the
stored value follows the three-tier fallback of `_get_value`: the native
evaluation when it succeeds, else the raw unevaluated string, else `None`. -/
theorem snapshot_value_three_tier (p : SourceParm) :
    (∀ v, p.evalResult = some v → (ParameterItem.ofParm p).value = some v) ∧
    (∀ s, p.evalResult = none → p.unexpandedResult = some s →
        (ParameterItem.ofParm p).value = some (Value.str s)) ∧
    (p.evalResult = none → p.unexpandedResult = none →
        (ParameterItem.ofParm p).value = none) := by
  refine ⟨?_, ?_, ?_⟩ <;> intros <;> simp_all [ParameterItem.ofParm, get_value]

/-- Witness for `snapshot_value_three_tier`: one fixture per tier — a healthy
evaluation, an evaluation failure with a readable raw string, and a parameter
on which both reads raise. -/
theorem snapshot_value_three_tier_witness :
    srcNum.evalResult = some (Value.num 45) ∧
    (ParameterItem.ofParm srcNum).value = some (Value.num 45) ∧
    srcEvalFails.evalResult = none ∧
    srcEvalFails.unexpandedResult = some "$HIP/tex.png" ∧
    (ParameterItem.ofParm srcEvalFails).value = some (Value.str "$HIP/tex.png") ∧
    srcAllFails.evalResult = none ∧
    srcAllFails.unexpandedResult = none ∧
    (ParameterItem.ofParm srcAllFails).value = none :=
  ⟨by decide,
    (snapshot_value_three_tier srcNum).1 (Value.num 45) (by decide),
    by decide, by decide,
    (snapshot_value_three_tier srcEvalFails).2.1 "$HIP/tex.png" (by decide) (by decide),
    by decide, by decide,
    (snapshot_value_three_tier srcAllFails).2.2 (by decide) (by decide)⟩

/-- C9: a snapshot's `has_keyframes` is exactly the scene API's report that the
parameter's value varies with time via stored animation samples
(`isTimeDependent`); `has_expression` is probed only when `has_keyframes` is
false and a failed expression probe yields `false`; consequently the two flags
are never both true. -/
theorem snapshot_flags (p : SourceParm) :
    (ParameterItem.ofParm p).has_keyframes = p.isTimeDependent ∧
    (ParameterItem.ofParm p).has_expression = (!p.isTimeDependent && p.expr.isSome) ∧
    ((ParameterItem.ofParm p).has_keyframes && (ParameterItem.ofParm p).has_expression)
      = false := by
  refine ⟨rfl, rfl, ?_⟩
  cases h : p.isTimeDependent <;> simp [ParameterItem.ofParm, h]

/-- Counter update: one `tally` call raises the three-counter total by exactly
one, whatever the outcome. -/
theorem tally_total (c : TransferCounts) (o : Outcome) :
    (tally c o).success_count + (tally c o).skip_count + (tally c o).fail_count
      = c.success_count + c.skip_count + c.fail_count + 1 := by
  cases o <;> simp [tally] <;> omega

/-- The inner batch loop counts exactly one outcome per selected parameter. -/
theorem transferToTarget_counts (items : List ParameterItem)
    (copy_expressions copy_keyframes skip_locked : Bool) :
    ∀ (node : TargetNode) (c : TransferCounts),
      ((transferToTarget items copy_expressions copy_keyframes skip_locked node c).2).success_count
        + ((transferToTarget items copy_expressions copy_keyframes skip_locked node c).2).skip_count
        + ((transferToTarget items copy_expressions copy_keyframes skip_locked node c).2).fail_count
      = c.success_count + c.skip_count + c.fail_count + items.length := by
  induction items with
  | nil => intro node c; simp [transferToTarget]
  | cons it rest ih =>
    intro node c
    have hstep : transferToTarget (it :: rest) copy_expressions copy_keyframes skip_locked node c
        = transferToTarget rest copy_expressions copy_keyframes skip_locked
            (transfer_parameter it node copy_expressions copy_keyframes skip_locked).2
            (tally c (transfer_parameter it node copy_expressions copy_keyframes skip_locked).1) := rfl
    rw [hstep, ih, tally_total]
    simp
    omega

/-- The outer batch loop adds one counted outcome per (target, parameter) pair. -/
theorem do_transfer_counts (targets : List TargetNode) (items : List ParameterItem)
    (copy_expressions copy_keyframes skip_locked : Bool) :
    ∀ c : TransferCounts,
      ((do_transfer targets items copy_expressions copy_keyframes skip_locked c).2).success_count
        + ((do_transfer targets items copy_expressions copy_keyframes skip_locked c).2).skip_count
        + ((do_transfer targets items copy_expressions copy_keyframes skip_locked c).2).fail_count
      = c.success_count + c.skip_count + c.fail_count + targets.length * items.length := by
  induction targets with
  | nil => intro c; simp [do_transfer]
  | cons n rest ih =>
    intro c
    have hstep : do_transfer (n :: rest) items copy_expressions copy_keyframes skip_locked c
        = (((transferToTarget items copy_expressions copy_keyframes skip_locked n c).1
              :: (do_transfer rest items copy_expressions copy_keyframes skip_locked
                    (transferToTarget items copy_expressions copy_keyframes skip_locked n c).2).1),
           (do_transfer rest items copy_expressions copy_keyframes skip_locked
              (transferToTarget items copy_expressions copy_keyframes skip_locked n c).2).2) := rfl
    rw [hstep]
    simp only []
    rw [ih, transferToTarget_counts]
    simp [List.length_cons, Nat.succ_mul]
    omega

/-- C7: every one of the N×M (target, parameter) pairs of a batch is processed
and counted as exactly one of Success, Skipped or Failed — the transfer of one
pair is a total function (every scene-API exception is classified, never
re-raised past the pair), so the three counters of the batch starting from
zero sum to `targets.length * items.length`. -/
theorem do_transfer_counts_every_pair (targets : List TargetNode)
    (items : List ParameterItem) (copy_expressions copy_keyframes skip_locked : Bool) :
    ((do_transfer targets items copy_expressions copy_keyframes skip_locked
        ⟨0, 0, 0⟩).2).success_count
      + ((do_transfer targets items copy_expressions copy_keyframes skip_locked
            ⟨0, 0, 0⟩).2).skip_count
      + ((do_transfer targets items copy_expressions copy_keyframes skip_locked
            ⟨0, 0, 0⟩).2).fail_count
      = targets.length * items.length := by
  simpa using do_transfer_counts targets items copy_expressions copy_keyframes skip_locked
    ⟨0, 0, 0⟩

/-- The plain-value copy only reads the source (raw string or evaluation). -/
theorem plainValueOps_reads (item : ParameterItem) :
    (plainValueOps item).all SrcOp.isRead = true := by
  cases h : item.parm_template_type <;> simp [plainValueOps, h, SrcOp.isRead]

/-- The guarded transfer body only reads the source. -/
theorem transferTryOps_reads (item : ParameterItem) (src : SourceParm)
    (tp : TargetParm) (copy_expressions copy_keyframes : Bool) :
    (transferTryOps item src tp copy_expressions copy_keyframes).all SrcOp.isRead = true := by
  by_cases h1 : (copy_keyframes && item.has_keyframes) = true
  · by_cases h2 : tp.deleteKeyframesFails = true <;>
      simp [transferTryOps, h1, h2, SrcOp.isRead]
  · have h1' : (copy_keyframes && item.has_keyframes) = false := by simpa using h1
    by_cases h2 : (copy_expressions && item.has_expression) = true
    · cases hex : src.expr with
      | none => simp [transferTryOps, h1', h2, hex, SrcOp.isRead, plainValueOps_reads]
      | some pr =>
        by_cases h3 : tp.setExpressionFails = true <;>
          simp [transferTryOps, h1', h2, hex, h3, SrcOp.isRead, plainValueOps_reads]
    · have h2' : (copy_expressions && item.has_expression) = false := by simpa using h2
      simp [transferTryOps, h1', h2', plainValueOps_reads]

/-- C10: whatever the options and outcome, every scene-API call the transfer
resolver applies to the source parameter is a read (`eval`,
`unexpandedString`, `expression`, `expressionLanguage`, `keyframes`,
`isLocked`); no mutating call ever targets the source, so the source
parameter's value, expression, keyframes and lock state are untouched. -/
theorem transfer_source_read_only (item : ParameterItem) (node : TargetNode)
    (copy_expressions copy_keyframes skip_locked : Bool) :
    (transferSourceOps item node copy_expressions copy_keyframes skip_locked).all
      SrcOp.isRead = true := by
  unfold transferSourceOps
  cases hfind : node.parm item.name with
  | none => simp
  | some tp =>
    by_cases hsl : skip_locked = true
    · by_cases htl : tp.locked = true
      · simp [hsl, htl]
      · by_cases hsrcl : item.parm.locked = true <;>
          simp [hsl, htl, hsrcl, SrcOp.isRead, transferTryOps_reads]
    · have hsl' : skip_locked = false := by simpa using hsl
      simp [hsl', transferTryOps_reads]

/-- Running the plain-value copy again from the state it produced (normal or
exceptional) reproduces the same result. -/
theorem copyPlainValue_idem (item : ParameterItem) (src : SourceParm) (tp : TargetParm) :
    copyPlainValue item src (resultParm (copyPlainValue item src tp))
      = copyPlainValue item src tp := by
  cases hty : item.parm_template_type <;> cases hu : src.unexpandedResult <;>
    cases he : src.evalResult <;> cases hsv : tp.setValueFails <;>
    simp [copyPlainValue, hty, hu, he, setOp, hsv, resultParm]

/-- The plain-value copy changes neither the lock state nor the failure flags
of the target parameter. -/
theorem copyPlainValue_meta (item : ParameterItem) (src : SourceParm) (tp : TargetParm) :
    (resultParm (copyPlainValue item src tp)).locked = tp.locked ∧
    (resultParm (copyPlainValue item src tp)).setExpressionFails = tp.setExpressionFails := by
  cases hty : item.parm_template_type <;> cases hu : src.unexpandedResult <;>
    cases he : src.evalResult <;> cases hsv : tp.setValueFails <;>
    simp [copyPlainValue, hty, hu, he, setOp, hsv, resultParm]

/-- Running the guarded transfer body again from the state it left behind
reproduces the same result (same constructor, same final parameter state). -/
theorem transferTry_idem (item : ParameterItem) (src : SourceParm) (tp : TargetParm)
    (copy_expressions copy_keyframes : Bool) :
    transferTry item src (resultParm (transferTry item src tp copy_expressions copy_keyframes))
        copy_expressions copy_keyframes
      = transferTry item src tp copy_expressions copy_keyframes := by
  by_cases hb : (copy_keyframes && item.has_keyframes) = true
  · cases hd : tp.deleteKeyframesFails with
    | true => simp [transferTry, hb, deleteAllKeyframesOp, hd, resultParm]
    | false =>
      cases hks : src.keyframesResult with
      | none => simp [transferTry, hb, deleteAllKeyframesOp, hd, hks, resultParm]
      | some ks =>
        cases hsf : tp.setKeyframeFails with
        | true =>
          cases ks with
          | nil =>
            simp [transferTry, hb, deleteAllKeyframesOp, hd, hks, setKeyframesLoop_spec,
                  hsf, resultParm]
          | cons k rest =>
            simp [transferTry, hb, deleteAllKeyframesOp, hd, hks, setKeyframesLoop_spec,
                  hsf, resultParm]
        | false =>
          simp [transferTry, hb, deleteAllKeyframesOp, hd, hks, setKeyframesLoop_spec,
                hsf, resultParm]
  · have hb' : (copy_keyframes && item.has_keyframes) = false := by simpa using hb
    by_cases he : (copy_expressions && item.has_expression) = true
    · cases hex : src.expr with
      | none =>
        have h1 : transferTry item src tp copy_expressions copy_keyframes
            = copyPlainValue item src tp := by
          simp [transferTry, hb', exprAttempt, he, hex]
        rw [h1]
        have h2 : exprAttempt item src (resultParm (copyPlainValue item src tp))
            copy_expressions = none := by
          simp [exprAttempt, he, hex]
        simp [transferTry, hb', h2, copyPlainValue_idem]
      | some pr =>
        obtain ⟨e, lang⟩ := pr
        cases hsef : tp.setExpressionFails with
        | false =>
          simp [transferTry, hb', exprAttempt, he, hex, setExpressionOp, hsef, resultParm]
        | true =>
          have h1 : transferTry item src tp copy_expressions copy_keyframes
              = copyPlainValue item src tp := by
            simp [transferTry, hb', exprAttempt, he, hex, setExpressionOp, hsef]
          rw [h1]
          have hm := (copyPlainValue_meta item src tp).2
          have h2 : exprAttempt item src (resultParm (copyPlainValue item src tp))
              copy_expressions = none := by
            simp [exprAttempt, he, hex, setExpressionOp, hm, hsef]
          simp [transferTry, hb', h2, copyPlainValue_idem]
    · have he' : (copy_expressions && item.has_expression) = false := by simpa using he
      have h1 : transferTry item src tp copy_expressions copy_keyframes
          = copyPlainValue item src tp := by
        simp [transferTry, hb', exprAttempt, he']
      rw [h1]
      have h2 : exprAttempt item src (resultParm (copyPlainValue item src tp))
          copy_expressions = none := by
        simp [exprAttempt, he']
      simp [transferTry, hb', h2, copyPlainValue_idem]

/-- The guarded transfer body never changes the lock state of the target
parameter. -/
theorem transferTry_locked (item : ParameterItem) (src : SourceParm) (tp : TargetParm)
    (copy_expressions copy_keyframes : Bool) :
    (resultParm (transferTry item src tp copy_expressions copy_keyframes)).locked
      = tp.locked := by
  by_cases hb : (copy_keyframes && item.has_keyframes) = true
  · cases hd : tp.deleteKeyframesFails with
    | true => simp [transferTry, hb, deleteAllKeyframesOp, hd, resultParm]
    | false =>
      cases hks : src.keyframesResult with
      | none => simp [transferTry, hb, deleteAllKeyframesOp, hd, hks, resultParm]
      | some ks =>
        cases hsf : tp.setKeyframeFails <;> cases ks <;>
          simp [transferTry, hb, deleteAllKeyframesOp, hd, hks, setKeyframesLoop_spec,
                hsf, resultParm]
  · have hb' : (copy_keyframes && item.has_keyframes) = false := by simpa using hb
    by_cases he : (copy_expressions && item.has_expression) = true
    · cases hex : src.expr with
      | none =>
        have h1 : transferTry item src tp copy_expressions copy_keyframes
            = copyPlainValue item src tp := by
          simp [transferTry, hb', exprAttempt, he, hex]
        rw [h1]
        exact (copyPlainValue_meta item src tp).1
      | some pr =>
        obtain ⟨e, lang⟩ := pr
        cases hsef : tp.setExpressionFails with
        | false =>
          simp [transferTry, hb', exprAttempt, he, hex, setExpressionOp, hsef, resultParm]
        | true =>
          have h1 : transferTry item src tp copy_expressions copy_keyframes
              = copyPlainValue item src tp := by
            simp [transferTry, hb', exprAttempt, he, hex, setExpressionOp, hsef]
          rw [h1]
          exact (copyPlainValue_meta item src tp).1
    · have he' : (copy_expressions && item.has_expression) = false := by simpa using he
      have h1 : transferTry item src tp copy_expressions copy_keyframes
          = copyPlainValue item src tp := by
        simp [transferTry, hb', exprAttempt, he']
      rw [h1]
      exact (copyPlainValue_meta item src tp).1

/-- C8: transfer is idempotent.  With the same descriptor, options and source,
running the transfer a second time on the node state produced by the first run
returns the same outcome classification and leaves the node in the same state:
the second `(outcome, node)` pair equals the first. -/
theorem transfer_idempotent (item : ParameterItem) (node : TargetNode)
    (copy_expressions copy_keyframes skip_locked : Bool) :
    transfer_parameter item
        (transfer_parameter item node copy_expressions copy_keyframes skip_locked).2
        copy_expressions copy_keyframes skip_locked
      = transfer_parameter item node copy_expressions copy_keyframes skip_locked := by
  cases hfind : node.parm item.name with
  | none => simp [transfer_parameter, hfind]
  | some tp =>
    by_cases hlk : (skip_locked && (tp.locked || item.parm.locked)) = true
    · simp [transfer_parameter, hfind, hlk]
    · have hlk' : (skip_locked && (tp.locked || item.parm.locked)) = false := by
        simpa using hlk
      have hidem := transferTry_idem item item.parm tp copy_expressions copy_keyframes
      have hloc := transferTry_locked item item.parm tp copy_expressions copy_keyframes
      cases hr : transferTry item item.parm tp copy_expressions copy_keyframes with
      | ok t =>
        rw [hr] at hidem hloc
        simp only [resultParm] at hidem hloc
        have hfind2 := parm_setParm node item.name tp t hfind
        simp [transfer_parameter, hfind, hfind2, hr, hloc, hlk', hidem, setParm_setParm]
      | error t =>
        rw [hr] at hidem hloc
        simp only [resultParm] at hidem hloc
        have hfind2 := parm_setParm node item.name tp t hfind
        simp [transfer_parameter, hfind, hfind2, hr, hloc, hlk', hidem, setParm_setParm]

end ParmTransfer
